import Mathlib

/-!
Verification development for the AIthon actor runtime.

The definitions below are a shallow embedding of the runtime sources:
  * `src/include/runtime/lockfree_queue.h`  (MPSC mailbox queue)
  * `src/include/runtime/heap.h`, `src/src/runtime/heap.cpp` (per-actor bump heap)
  * `src/include/runtime/message.h` (message record)
  * `src/include/runtime/actor_process.h`, `src/src/runtime/actor_process.cpp`
  * `src/include/runtime/actor_gc.h`, `src/src/runtime/actor_gc.cpp`
  * `src/runtime_lib/runtime.cpp` (C ABI surface)
  * `src/include/runtime/supervisor.h` (interface only; the member function
    bodies are absent from the sources, so they are modelled from the spec)

Machine integers are modelled as `Nat`/`Int`; addresses are `Nat`s and each
arena occupies the address range `[base, base + size)`.  Struct sizes are the
concrete x86-64 values: `sizeof(GCObjectHeader) = 16` (8 bytes of fields padded
by `alignas(16)`), `sizeof(ActorHeap::ObjectHeader) = 16` (`size_t` + `bool`
padded by `alignas(8)`), `sizeof(Message) = 32`.
-/

namespace AIthon

/-! ## Mailbox queue (`lockfree_queue.h`)

`LockFreeQueue<T>` is a linked list with a dummy head node.  Sequentially, its
observable contents are the values stored after the dummy head, in link order:
`enqueue` publishes a node at the tail, `try_dequeue` takes the node after the
dummy head (returning `none` exactly when that link is null, i.e. the queue is
empty).  We model the contents as a `List`. -/

namespace LockFreeQueue

/-- `enqueue(value)`: the new node becomes the tail (lockfree_queue.h:45-49). -/
def enqueue {T : Type} (q : List T) (value : T) : List T :=
  q ++ [value]

/-- `try_dequeue()`: read the dummy head's `next`; if null the queue is empty
and the result is `none`; otherwise extract that node's payload and advance the
head (lockfree_queue.h:52-70). -/
def tryDequeue {T : Type} (q : List T) : Option T × List T :=
  match q with
  | [] => (none, [])
  | x :: rest => (some x, rest)

/-- One queue operation: a producer enqueue or a consumer dequeue attempt. -/
inductive QOp (T : Type) where
  | enq (value : T)
  | deq

/-- Run a sequence of operations from a queue state, logging every payload a
`try_dequeue` successfully returned, in order. -/
def runOps {T : Type} (start : List T × List T) (ops : List (QOp T)) :
    List T × List T :=
  match ops with
  | [] => start
  | QOp.enq v :: rest => runOps (enqueue start.1 v, start.2) rest
  | QOp.deq :: rest =>
      match tryDequeue start.1 with
      | (none, q') => runOps (q', start.2) rest
      | (some x, q') => runOps (q', start.2 ++ [x]) rest

/-- The values enqueued by a sequence of operations, in order. -/
def enqValues {T : Type} (ops : List (QOp T)) : List T :=
  ops.filterMap (fun op => match op with | QOp.enq v => some v | QOp.deq => none)

end LockFreeQueue

/-! ## Message (`message.h`) -/

/-- `struct Message`: a payload address, a byte count, the sender's pid and a
millisecond timestamp (message.h:9-51).  The payload bytes themselves live in
whichever heap `payload` points into. -/
structure Message where
  payload : Nat
  size : Nat
  sender_pid : Int
  timestamp : Nat
  deriving DecidableEq, Repr

/-! ## Actor heap (`heap.h`, `heap.cpp`)

`ActorHeap` is a bump-allocated byte arena with a 16-byte `ObjectHeader`
(`size_t size; bool marked;` padded by `alignas(8)`) before each allocation.
We model the arena as its allocation-ordered object list; the bump pointer and
the used-byte counter are the derived sum (the C++ keeps
`allocation_ptr_ - heap_start_ == used_size_` at every step).  Object data is
a byte list of the aligned length; bytes the program never writes are modelled
as zeros (the C++ leaves them uninitialised and no claim observes them). -/

/-- `sizeof(ActorHeap::ObjectHeader)` = 16. -/
def HEAP_HEADER_SIZE : Nat := 16

/-- Align a request to 8 bytes: `(size + 7) & ~7` (heap.cpp:22). -/
def align8 (n : Nat) : Nat := (n + 7) / 8 * 8

/-- One allocation in an `ActorHeap`: its `ObjectHeader` fields and data. -/
structure HeapObj where
  size : Nat
  marked : Bool
  data : List Nat
  deriving DecidableEq, Repr

/-- The `ActorHeap` arena: base address, total byte size, and the allocated
objects in bump order starting at `base`. -/
structure ActorHeap where
  base : Nat
  total : Nat
  objects : List HeapObj
  deriving DecidableEq, Repr

namespace ActorHeap

/-- `used_size_`: bytes consumed, header included, per object. -/
def used (h : ActorHeap) : Nat :=
  (h.objects.map (fun o => HEAP_HEADER_SIZE + o.size)).sum

/-- `compact_heap()` (heap.cpp:56-82): slide every marked object down, drop the
rest, and clear the mark of each kept object (the reset is written to the
object's new location).  The `memmove` preserves each kept object's bytes. -/
def compact_heap (h : ActorHeap) : ActorHeap :=
  { h with objects := ((h.objects.filter (fun o => o.marked)).map
      (fun o => { o with marked := false })) }

/-- `collect_garbage()` (heap.cpp:45-54): "just compact without proper
marking" — nothing in the repository ever sets an `ActorHeap` mark, so in
practice this frees every object. -/
def collect_garbage (h : ActorHeap) : ActorHeap :=
  compact_heap h

/-- Append a fresh object of aligned size `a` and return its data address
(heap.cpp:34-42). -/
def bump (h : ActorHeap) (a : Nat) : Nat × ActorHeap :=
  (h.base + h.used + HEAP_HEADER_SIZE,
   { h with objects := h.objects ++ [{ size := a, marked := false,
                                       data := List.replicate a 0 }] })

/-- `allocate(size)` (heap.cpp:20-43): align to 8 bytes, add the header size;
if the bump pointer would pass `heap_end_`, run `collect_garbage()` and
re-check; fail with null only if still out of space; otherwise write a header
and bump. -/
def allocate (h : ActorHeap) (size : Nat) : Option Nat × ActorHeap :=
  if h.used + (HEAP_HEADER_SIZE + align8 size) > h.total then
    if (collect_garbage h).used + (HEAP_HEADER_SIZE + align8 size) >
        (collect_garbage h).total then
      (none, collect_garbage h)
    else
      (some ((collect_garbage h).bump (align8 size)).1,
       ((collect_garbage h).bump (align8 size)).2)
  else
    (some ((h.bump (align8 size)).1), (h.bump (align8 size)).2)

/-- Overwrite the first `bytes.length` data bytes of the most recently
allocated object (the effect of `memcpy(local_payload, src, n)` right after a
successful bump allocation). -/
def writeLast (h : ActorHeap) (bytes : List Nat) : ActorHeap :=
  match h.objects.getLast? with
  | none => h
  | some o =>
      { h with objects := h.objects.dropLast ++
          [{ o with data := bytes ++ o.data.drop bytes.length }] }

/-- Walk the objects from arena offset `off`; when one's data address is
`addr`, read `len` of its data bytes. -/
def readAtAux (base addr len : Nat) : Nat → List HeapObj → Option (List Nat)
  | _, [] => none
  | off, o :: rest =>
      if base + off + HEAP_HEADER_SIZE = addr then some (o.data.take len)
      else readAtAux base addr len (off + HEAP_HEADER_SIZE + o.size) rest

/-- Read `len` bytes starting at data address `addr`, if `addr` is the data
address of some allocated object. -/
def readAt (h : ActorHeap) (addr len : Nat) : Option (List Nat) :=
  readAtAux h.base addr len 0 h.objects

end ActorHeap

/-! ## Actor process (`actor_process.h`, `actor_process.cpp`) -/

/-- `REDUCTIONS_PER_SLICE` (actor_process.h:17). -/
def REDUCTIONS_PER_SLICE : Int := 2000

/-- Two's-complement wrap of a 32-bit `int`: the value a C++ `std::atomic<int>`
holds after arithmetic.  `wrap32 x = x` for `x` in `[-2^31, 2^31)`, and the
wrap at `INT_MIN` carries `-2^31 - 1` to `2^31 - 1`. -/
def wrap32 (x : Int) : Int := (x + 2 ^ 31) % 2 ^ 32 - 2 ^ 31

/-- `enum class ActorState` (actor_process.h:19-26). -/
inductive ActorState where
  | RUNNABLE
  | WAITING
  | RUNNING
  | SUSPENDED
  | EXITING
  | DEAD
  deriving DecidableEq, Repr

/-- `sizeof(Message)` = 32 on x86-64 (`void*` + `size_t` + `int` + padding +
`uint64_t`), the envelope `receive()` allocates on the actor's heap. -/
def MESSAGE_SIZEOF : Nat := 32

/-- `class ActorProcess` (actor_process.h:28-114): the fields the runtime
claims observe.  The mailbox is the `LockFreeQueue<Message>` contents in
queue order. -/
structure ActorProcess where
  pid : Int
  heap : ActorHeap
  mailbox : List Message
  state : ActorState
  reductions : Int
  supervisor_pid : Int
  caller_pid : Int
  exit_msg : String
  crash_time : Nat
  deriving DecidableEq, Repr

namespace ActorProcess

/-- The success tail of `send` (actor_process.cpp:38-49): `memcpy` the payload
bytes into the fresh allocation, enqueue a `Message` pointing at the copy, and
CAS the state `WAITING → RUNNABLE` (any other state is left unchanged). -/
def sendFinish (r : ActorProcess) (h1 : ActorHeap) (addr : Nat) (msg : Message)
    (srcBytes : List Nat) (now : Nat) : Bool × ActorProcess :=
  let h2 := h1.writeLast (srcBytes.take msg.size)
  let m : Message := { payload := addr, size := msg.size,
                       sender_pid := msg.sender_pid, timestamp := now }
  (true,
   { r with heap := h2, mailbox := r.mailbox ++ [m],
            state := if r.state = ActorState.WAITING then ActorState.RUNNABLE
                     else r.state })

/-- `send(msg)` (actor_process.cpp:26-50): allocate space for the payload in
this actor's own heap, retrying once after `collect_garbage()`; on failure
return `false`; on success copy the payload bytes and enqueue.  `srcBytes` are
the bytes at `msg.payload` in the sender's memory, and `now` the enqueue
timestamp taken by the `Message` constructor. -/
def send (r : ActorProcess) (msg : Message) (srcBytes : List Nat) (now : Nat) :
    Bool × ActorProcess :=
  match r.heap.allocate msg.size with
  | (none, h1) =>
      match h1.collect_garbage.allocate msg.size with
      | (none, h3) => (false, { r with heap := h3 })
      | (some addr, h3) => sendFinish r h3 addr msg srcBytes now
  | (some addr, h1) => sendFinish r h1 addr msg srcBytes now

/-- `receive()` (actor_process.cpp:52-66): dequeue from the mailbox; if a
message is present, allocate a heap envelope for it and return it; if the
envelope allocation fails the dequeued message is lost and control falls
through to the empty-mailbox path, which stores `WAITING` and returns null. -/
def receive (r : ActorProcess) : Option Message × ActorProcess :=
  match r.mailbox with
  | m :: rest =>
      match r.heap.allocate MESSAGE_SIZEOF with
      | (some _, h1) => (some m, { r with mailbox := rest, heap := h1 })
      | (none, h1) =>
          (none, { r with mailbox := rest, heap := h1,
                          state := ActorState.WAITING })
  | [] => (none, { r with state := ActorState.WAITING })

/-- `handle_crash(reason)` (actor_process.cpp:127-136): store `DEAD`, record
the reason and the crash timestamp. -/
def handle_crash (r : ActorProcess) (reason : String) (now : Nat) :
    ActorProcess :=
  { r with state := ActorState.DEAD, exit_msg := reason, crash_time := now }

/-- The state handed to the behavior function inside `execute_quantum`: state
stored `RUNNING` by the CAS, reduction counter reset to the fixed budget
(actor_process.cpp:90-97). -/
def quantumStart (r : ActorProcess) : ActorProcess :=
  { r with state := ActorState.RUNNING, reductions := REDUCTIONS_PER_SLICE }

/-- A behavior run returns the actor state at the point control comes back,
plus `some reason` when it raised a fault (`throw`) instead of returning. -/
def BehaviorRun : Type := ActorProcess → ActorProcess × Option String

/-- `execute_quantum()` (actor_process.cpp:89-120): CAS `RUNNABLE → RUNNING`
(else return false); reset the reduction counter; run the behavior inside a
catch-all `try`; a normal return flips a still-`RUNNING` state back to
`RUNNABLE` and yields `true`; any fault is caught at this boundary, handed to
`handle_crash`, and the call returns `false`. -/
def execute_quantum (r : ActorProcess) (behavior : BehaviorRun) (now : Nat) :
    Bool × ActorProcess :=
  if r.state = ActorState.RUNNABLE then
    match behavior (quantumStart r) with
    | (r2, none) =>
        if r2.state = ActorState.RUNNING then
          (true, { r2 with state := ActorState.RUNNABLE })
        else (true, r2)
    | (r2, some reason) => (false, handle_crash r2 reason now)
  else (false, r)

/-- `should_yield()` (actor_process.cpp:122-125): `reductions_` is a 32-bit
`std::atomic<int>`; `fetch_sub(1)` returns the previous counter value and
stores `previous - 1` with two's-complement wrap (so the stored value goes
back up to `INT_MAX` when the counter passes `INT_MIN`).  The call reports
exhaustion when the previous value is `<= 0`. -/
def should_yield (r : ActorProcess) : Bool × ActorProcess :=
  (decide (r.reductions ≤ 0), { r with reductions := wrap32 (r.reductions - 1) })

/-- The actor state after `n` consecutive `should_yield()` calls. -/
def yieldSteps (r : ActorProcess) : Nat → ActorProcess
  | 0 => r
  | n + 1 => (should_yield (yieldSteps r n)).2

end ActorProcess

/-! ## Generational GC (`actor_gc.h`, `actor_gc.cpp`)

One `ActorGC` owns a young and an old `Generation`, each a bump arena with a
16-byte `GCObjectHeader` before every object.  A generation is modelled by its
allocation-ordered object list; the bump pointer and `used` are the derived
byte sum (the C++ keeps `alloc_ptr - start == used` at every step).  Roots are
modelled by the address value each registered `void**` slot currently holds
(`0` for null).  `allocation_age_` is an association list keyed by header
address, exactly as the C++ map is keyed by header pointer. -/

/-- `sizeof(GCObjectHeader)` = 16 (8 bytes of fields, `alignas(16)`). -/
def GC_HEADER_SIZE : Nat := 16

/-- `YOUNG_GEN_SIZE` (actor_gc.h:95). -/
def YOUNG_GEN_SIZE : Nat := 512 * 1024

/-- `OLD_GEN_SIZE` (actor_gc.h:96). -/
def OLD_GEN_SIZE : Nat := 8 * 1024 * 1024

/-- `PROMOTION_AGE` (actor_gc.h:97). -/
def PROMOTION_AGE : Nat := 3

/-- Align a request to 16 bytes: `(size + 15) & ~15` (actor_gc.cpp:63). -/
def align16 (n : Nat) : Nat := (n + 15) / 16 * 16

/-- One allocated object: the `GCObjectHeader` fields plus its data bytes
(`data.length = size`, the aligned size).  Bytes the program never writes are
modelled as zeros (uninitialised in the C++; no claim observes them). -/
structure GCObject where
  size : Nat
  generation : Nat
  marked : Bool
  pinned : Bool
  has_refs : Bool
  type_id : Nat
  data : List Nat
  deriving DecidableEq, Repr

/-- A GC generation arena (actor_gc.h:53-77). -/
structure Generation where
  size : Nat
  objects : List GCObject
  deriving DecidableEq, Repr

/-- `used`: bytes consumed (header plus aligned data per object). -/
def Generation.used (g : Generation) : Nat :=
  (g.objects.map (fun o => GC_HEADER_SIZE + o.size)).sum

/-- `class ActorGC` state: the two generations and their base addresses, the
root values, the remembered set (header addresses; never populated anywhere in
the source, since `write_barrier` is a stub), the allocation-age map, and the
statistics counters the claims mention. -/
structure ActorGC where
  youngBase : Nat
  oldBase : Nat
  young : Generation
  old : Generation
  roots : List Nat
  remembered : List Nat
  allocation_age : List (Nat × Nat)
  objects_allocated : Nat
  objects_freed : Nat
  bytes_allocated : Nat
  bytes_freed : Nat
  promotions : Nat
  young_collections : Nat
  old_collections : Nat
  total_collections : Nat
  deriving DecidableEq, Repr

namespace ActorGC

/-- A fresh `ActorGC()` (actor_gc.cpp:10-16) with the two arenas placed at the
given base addresses. -/
def init (youngBase oldBase : Nat) : ActorGC :=
  { youngBase := youngBase, oldBase := oldBase,
    young := { size := YOUNG_GEN_SIZE, objects := [] },
    old := { size := OLD_GEN_SIZE, objects := [] },
    roots := [], remembered := [], allocation_age := [],
    objects_allocated := 0, objects_freed := 0, bytes_allocated := 0,
    bytes_freed := 0, promotions := 0, young_collections := 0,
    old_collections := 0, total_collections := 0 }

/-- `Generation::contains` for the young arena: a bounds check only. -/
def inYoung (st : ActorGC) (p : Nat) : Bool :=
  decide (st.youngBase ≤ p ∧ p < st.youngBase + st.young.size)

/-- `Generation::contains` for the old arena. -/
def inOld (st : ActorGC) (p : Nat) : Bool :=
  decide (st.oldBase ≤ p ∧ p < st.oldBase + st.old.size)

/-- Lookup in the `allocation_age_` association list. -/
def ageGet (m : List (Nat × Nat)) (k : Nat) : Option Nat :=
  match m with
  | [] => none
  | (k', v) :: rest => if k' = k then some v else ageGet rest k

/-- Insert-or-assign in the `allocation_age_` association list
(`allocation_age_[header] = v`). -/
def ageSet (m : List (Nat × Nat)) (k v : Nat) : List (Nat × Nat) :=
  match m with
  | [] => [(k, v)]
  | (k', v') :: rest =>
      if k' = k then (k, v) :: rest else (k', v') :: ageSet rest k v

/-- Index of the object whose data starts at arena offset `addr - base`,
walking the headers from the start of the arena. -/
def findByDataAddrAux (addr : Nat) : Nat → Nat → List GCObject → Option Nat
  | _, _, [] => none
  | idx, pos, o :: rest =>
      if pos + GC_HEADER_SIZE = addr then some idx
      else findByDataAddrAux addr (idx + 1) (pos + GC_HEADER_SIZE + o.size) rest

/-- Index of the object whose data address is `addr` in an arena at `base`. -/
def findByDataAddr (base : Nat) (objs : List GCObject) (addr : Nat) :
    Option Nat :=
  findByDataAddrAux addr 0 base objs

/-- Index of the object whose header address is `addr`. -/
def findByHeaderAddrAux (addr : Nat) : Nat → Nat → List GCObject → Option Nat
  | _, _, [] => none
  | idx, pos, o :: rest =>
      if pos = addr then some idx
      else findByHeaderAddrAux addr (idx + 1) (pos + GC_HEADER_SIZE + o.size) rest

/-- Index of the object whose header sits at address `addr`. -/
def findByHeaderAddr (base : Nat) (objs : List GCObject) (addr : Nat) :
    Option Nat :=
  findByHeaderAddrAux addr 0 base objs

/-- Map a data pointer to the object it denotes: the young bounds check first,
then the old one, as in `mark_from_roots` / `mark_object`
(actor_gc.cpp:180-196, 210-227).  An in-range pointer that is not a valid data
address makes the C++ scribble a mark bit into arena bytes nothing later
observes; modelled as a no-op. -/
def resolve (st : ActorGC) (p : Nat) : Option (Bool × Nat) :=
  if st.inYoung p then
    match findByDataAddr st.youngBase st.young.objects p with
    | some i => some (true, i)
    | none => none
  else if st.inOld p then
    match findByDataAddr st.oldBase st.old.objects p with
    | some i => some (false, i)
    | none => none
  else none

/-- Fetch object `i` of the young (`true`) or old (`false`) generation. -/
def getObj (st : ActorGC) (isYoung : Bool) (i : Nat) : Option GCObject :=
  if isYoung then st.young.objects.get? i else st.old.objects.get? i

/-- Set the mark bit of object `i`. -/
def markAt (objs : List GCObject) (i : Nat) : List GCObject :=
  match objs.get? i with
  | none => objs
  | some o => objs.set i { o with marked := true }

/-- Write the mark of object `i` in the chosen generation. -/
def setMarked (st : ActorGC) (isYoung : Bool) (i : Nat) : ActorGC :=
  if isYoung then
    { st with young := { st.young with objects := markAt st.young.objects i } }
  else
    { st with old := { st.old with objects := markAt st.old.objects i } }

/-- Read pointer slot `i` of an object's data: `scan_object_references`
treats the data as an array of `void*`, eight little-endian bytes each
(actor_gc.cpp:336-343). -/
def readWord (data : List Nat) (i : Nat) : Nat :=
  (List.range 8).foldl (fun acc j => acc + data.getD (8 * i + j) 0 * 256 ^ j) 0

/-- The `size / sizeof(void*)` pointer slots of an object. -/
def objWords (o : GCObject) : List Nat :=
  (List.range (o.size / 8)).map (fun i => readWord o.data i)

/-- `mark_object` (actor_gc.cpp:200-230) as a worklist loop: skip an already
marked object, otherwise mark it and, when it `has_refs`, push every non-null
pointer slot that resolves to an object in either generation.  The C++ DFS
terminates because marks stop revisits; the fuel below is always sufficient,
so the two compute the same marked set. -/
def markLoop : Nat → ActorGC → List (Bool × Nat) → ActorGC
  | 0, st, _ => st
  | _ + 1, st, [] => st
  | fuel + 1, st, (isYoung, i) :: stack =>
      match st.getObj isYoung i with
      | none => markLoop fuel st stack
      | some o =>
          if o.marked then markLoop fuel st stack
          else
            let st1 := st.setMarked isYoung i
            let children :=
              if o.has_refs then
                (objWords o).filterMap
                  (fun w => if w = 0 then none else resolve st1 w)
              else []
            markLoop fuel st1 (children ++ stack)

/-- Fuel that always suffices for `markLoop`: one worklist entry plus one push
per pointer slot of every object. -/
def markFuel (st : ActorGC) : Nat :=
  1 + st.young.objects.length + st.old.objects.length +
    (((st.young.objects ++ st.old.objects).map (fun o => o.size / 8)).sum)

/-- `mark_from_roots()` (actor_gc.cpp:175-198): for every root slot holding a
non-null value, locate the generation containing it and mark recursively. -/
def mark_from_roots (st : ActorGC) : ActorGC :=
  st.roots.foldl
    (fun s rv =>
      if rv = 0 then s
      else
        match resolve s rv with
        | some (isYoung, i) => markLoop (markFuel s) s [(isYoung, i)]
        | none => s)
    st

/-- The remembered-set pass of `collect_young` (actor_gc.cpp:109-119): scan
each remembered old object's pointer slots and mark every young object they
reference.  `write_barrier` never inserts anything, so the set is empty in
every reachable state; the loop is modelled faithfully anyway. -/
def rememberedScan (st : ActorGC) : ActorGC :=
  st.remembered.foldl
    (fun s h =>
      match findByHeaderAddr s.oldBase s.old.objects h with
      | none => s
      | some i =>
          match s.getObj false i with
          | none => s
          | some o =>
              if o.has_refs then
                (objWords o).foldl
                  (fun s2 w =>
                    if w = 0 then s2
                    else if s2.inYoung w then
                      match findByDataAddr s2.youngBase s2.young.objects w with
                      | some j => markLoop (markFuel s2) s2 [(true, j)]
                      | none => s2
                    else s2)
                  s
              else s)
    st

/-- `should_promote(obj)` (actor_gc.cpp:318-325): if the header has an age
entry, increment it in place and report whether the new age reached
`PROMOTION_AGE`; headers without an entry are never promoted. -/
def should_promote (st : ActorGC) (hdrAddr : Nat) : Bool × ActorGC :=
  match ageGet st.allocation_age hdrAddr with
  | none => (false, st)
  | some age =>
      (decide (age + 1 ≥ PROMOTION_AGE),
       { st with allocation_age := ageSet st.allocation_age hdrAddr (age + 1) })

/-- `promote_to_old(obj)` (actor_gc.cpp:300-316): bump-allocate the object's
size in the old generation and `memcpy` its data bytes across; on allocation
failure nothing happens (the survivor is silently not promoted).  References
to the object are not updated ("requires cooperation with mutator"). -/
def promote_to_old (st : ActorGC) (o : GCObject) : ActorGC :=
  if st.old.used + (GC_HEADER_SIZE + align16 o.size) > st.old.size then st
  else
    { st with
        old := { st.old with objects := st.old.objects ++
          [{ size := align16 o.size, generation := 1, marked := false,
             pinned := false, has_refs := o.has_refs, type_id := o.type_id,
             data := o.data.take (align16 o.size) ++
               List.replicate (align16 o.size - o.data.length) 0 }] },
        promotions := st.promotions + 1 }

/-- The loop of `evacuate_survivors` (actor_gc.cpp:284-298): walk the young
arena headers; for each marked object, call `should_promote` (which bumps its
age) and promote when it answers yes.  The young object list itself is not
modified by this pass. -/
def evacuateAux : List GCObject → Nat → ActorGC → ActorGC
  | [], _, st => st
  | o :: rest, pos, st =>
      if o.marked then
        let (p, st1) := should_promote st (st.youngBase + pos)
        let st2 := if p then promote_to_old st1 o else st1
        evacuateAux rest (pos + GC_HEADER_SIZE + o.size) st2
      else
        evacuateAux rest (pos + GC_HEADER_SIZE + o.size) st

/-- `evacuate_survivors()` (actor_gc.cpp:284-298). -/
def evacuate_survivors (st : ActorGC) : ActorGC :=
  evacuateAux st.young.objects 0 st

/-- `collect_young()` (actor_gc.cpp:99-133): mark from roots, scan the
remembered set, evacuate aged survivors, then unconditionally reset the young
bump pointer — every young object, of any age, is discarded. -/
def collect_young (st : ActorGC) : ActorGC :=
  let s1 := mark_from_roots st
  let s2 := rememberedScan s1
  let s3 := evacuate_survivors s2
  { s3 with young := { s3.young with objects := [] },
            young_collections := s3.young_collections + 1,
            total_collections := s3.total_collections + 1 }

/-- `sweep_young()` (actor_gc.cpp:232-250): count each unmarked object as
freed in the statistics and clear every mark bit — the bump pointer and the
used counter are not touched, so no young byte is actually reclaimed. -/
def sweep_young (st : ActorGC) : ActorGC :=
  let garbage := st.young.objects.filter (fun o => !o.marked)
  { st with
      young := { st.young with objects :=
        (st.young.objects.map (fun o => { o with marked := false })) },
      objects_freed := st.objects_freed + garbage.length,
      bytes_freed := st.bytes_freed + (garbage.map (fun o => o.size)).sum }

/-- The stale `header->marked = false` write of `sweep_old`
(actor_gc.cpp:269-270): it targets the object's OLD location; when the slide
distance `gap` is smaller than the object's total size the write lands inside
the moved image and clears bit 0 of the flags byte, which sits at image offset
`gap + 6` — a data byte, since `gap ≥ 32`. -/
def clobberStaleMark (o : GCObject) (gap : Nat) : GCObject :=
  if gap + 6 < GC_HEADER_SIZE + o.size then
    let idx := gap + 6 - GC_HEADER_SIZE
    { o with data := o.data.set idx ((o.data.getD idx 0) &&& 254) }
  else o

/-- The sliding loop of `sweep_old` (actor_gc.cpp:252-282): marked objects are
`memmove`d down to the compaction point and their header's mark reset — but
the reset is written at the stale source location, so a MOVED survivor keeps
`marked = true` in its image (and, when source and destination overlap, one of
its data bytes is clobbered); unmarked objects are counted as freed. -/
def sweepOldAux : List GCObject → Nat → Nat → List GCObject → Nat → Nat →
    List GCObject × Nat × Nat
  | [], _, _, kept, freedCount, freedBytes => (kept, freedCount, freedBytes)
  | o :: rest, srcOff, dstOff, kept, freedCount, freedBytes =>
      let t := GC_HEADER_SIZE + o.size
      if o.marked then
        let o1 := { o with marked := decide (srcOff ≠ dstOff) }
        let o2 := if srcOff ≠ dstOff then clobberStaleMark o1 (srcOff - dstOff)
                  else o1
        sweepOldAux rest (srcOff + t) (dstOff + t) (kept ++ [o2])
          freedCount freedBytes
      else
        sweepOldAux rest (srcOff + t) dstOff kept
          (freedCount + 1) (freedBytes + o.size)

/-- `sweep_old()` (actor_gc.cpp:252-282). -/
def sweep_old (st : ActorGC) : ActorGC :=
  match sweepOldAux st.old.objects 0 0 [] 0 0 with
  | (kept, freedCount, freedBytes) =>
      { st with old := { st.old with objects := kept },
                objects_freed := st.objects_freed + freedCount,
                bytes_freed := st.bytes_freed + freedBytes }

/-- `compact_old_generation()` (actor_gc.cpp:358-381): keep exactly the
objects whose image still has `marked = true` (after `sweep_old` those are the
survivors that moved), sliding them down; no mark is reset here. -/
def compact_old_generation (st : ActorGC) : ActorGC :=
  { st with old := { st.old with objects :=
      (st.old.objects.filter (fun o => o.marked)) } }

/-- `collect_full()` (actor_gc.cpp:135-158): mark from roots, sweep both
generations, and compact the old generation above 70% occupancy.  The C++
threshold is `used > size * 0.7` in `double` arithmetic; for the fixed 8 MiB
size the rounded product and the exact one bound the same integers, so the
integer comparison below is equivalent. -/
def collect_full (st : ActorGC) : ActorGC :=
  let s1 := mark_from_roots st
  let s2 := sweep_young s1
  let s3 := sweep_old s2
  let s4 := if 10 * s3.old.used > 7 * s3.old.size then
              compact_old_generation s3
            else s3
  { s4 with old_collections := s4.old_collections + 1,
            total_collections := s4.total_collections + 1 }

/-- `allocate_in_generation` on the young arena (actor_gc.cpp:60-89): align,
check the bump bound, write a fresh header (`generation = 0`), and record age
0 for the new header address. -/
def allocYoung (st : ActorGC) (size type_id : Nat) (has_refs : Bool) :
    Option Nat × ActorGC :=
  if st.young.used + (GC_HEADER_SIZE + align16 size) > st.young.size then
    (none, st)
  else
    (some (st.youngBase + st.young.used + GC_HEADER_SIZE),
     { st with
         young := { st.young with objects := st.young.objects ++
           [{ size := align16 size, generation := 0, marked := false,
              pinned := false, has_refs := has_refs, type_id := type_id,
              data := List.replicate (align16 size) 0 }] },
         allocation_age :=
           ageSet st.allocation_age (st.youngBase + st.young.used) 0 })

/-- `allocate_in_generation` on the old arena (`generation = 1`; no age
entry is recorded for old objects). -/
def allocOld (st : ActorGC) (size type_id : Nat) (has_refs : Bool) :
    Option Nat × ActorGC :=
  if st.old.used + (GC_HEADER_SIZE + align16 size) > st.old.size then
    (none, st)
  else
    (some (st.oldBase + st.old.used + GC_HEADER_SIZE),
     { st with
         old := { st.old with objects := st.old.objects ++
           [{ size := align16 size, generation := 1, marked := false,
              pinned := false, has_refs := has_refs, type_id := type_id,
              data := List.replicate (align16 size) 0 }] } })

/-- `allocate_old(size, type_id, has_refs)` (actor_gc.cpp:47-58): try the old
arena; on failure run a full collection and retry once. -/
def allocate_old (st : ActorGC) (size type_id : Nat) (has_refs : Bool) :
    Option Nat × ActorGC :=
  match allocOld st size type_id has_refs with
  | (some p, st1) => (some p, st1)
  | (none, st1) => allocOld (collect_full st1) size type_id has_refs

/-- The statistics bump at the end of a successful `allocate`
(actor_gc.cpp:39-42). -/
def bumpAllocStats (st : ActorGC) (size : Nat) : ActorGC :=
  { st with objects_allocated := st.objects_allocated + 1,
            bytes_allocated := st.bytes_allocated + size }

/-- `allocate(size, type_id, has_refs)` (actor_gc.cpp:22-45): fast path in the
young arena; on failure run `collect_young()` and retry the young arena; if
that still fails fall back to `allocate_old` (which itself runs
`collect_full()` before giving up). -/
def allocate (st : ActorGC) (size type_id : Nat) (has_refs : Bool) :
    Option Nat × ActorGC :=
  match allocYoung st size type_id has_refs with
  | (some p, st1) => (some p, bumpAllocStats st1 size)
  | (none, st1) =>
      match allocYoung (collect_young st1) size type_id has_refs with
      | (some p, st3) => (some p, bumpAllocStats st3 size)
      | (none, st3) =>
          match allocate_old st3 size type_id has_refs with
          | (some p, st4) => (some p, bumpAllocStats st4 size)
          | (none, st4) => (none, st4)

/-- `add_root(root)` (actor_gc.cpp:91-93); a root is modelled by the address
value its registered slot holds. -/
def add_root (st : ActorGC) (rootVal : Nat) : ActorGC :=
  { st with roots := st.roots ++ [rootVal] }

/-- `remove_root(root)` (actor_gc.cpp:95-97). -/
def remove_root (st : ActorGC) (rootVal : Nat) : ActorGC :=
  { st with roots := st.roots.filter (fun r => r ≠ rootVal) }

end ActorGC

/-! ## C ABI surface (`runtime_lib/runtime.cpp`)

The runtime state visible through the C ABI: whether the global scheduler is
initialised, the number of pending messages in each actor's mailbox, and each
actor's reduction counter.  `runtime_receive_message` and
`runtime_should_yield` ignore all of it. -/

structure RuntimeState where
  scheduler_initialized : Bool
  mailbox_pending : List Nat
  reduction_counters : List Int

/-- `runtime_receive_message()` (runtime.cpp:41-45): "This would need to access
the current actor's mailbox.  For now, return nullptr." -/
def runtime_receive_message (_st : RuntimeState) : Option Nat :=
  none

/-- `runtime_should_yield()` (runtime.cpp:48-51): "This would access the
current actor's reduction counter.  return false." -/
def runtime_should_yield (_st : RuntimeState) : Bool :=
  false

/-! ## Supervisor (`supervisor.h`)

The source declares `class Supervisor` (supervisor.h:43-117) but contains no
definition of its member functions anywhere under the repository's sources;
their behaviour below is modelled from the spec (§4.5 and §8 of spec.md). -/

/-- `enum class RestartStrategy` (supervisor.h:13-18). -/
inductive RestartStrategy where
  | ONE_FOR_ONE
  | ONE_FOR_ALL
  | REST_FOR_ONE
  | SIMPLE_ONE_FOR_ONE
  deriving DecidableEq, Repr

/-- The restart policy of a `ChildSpec` (supervisor.h:28-30 keeps three
booleans `permanent` / `temporary` / `transient`; modelled as one choice). -/
inductive RestartPolicy where
  | permanent
  | transient
  | temporary
  deriving DecidableEq, Repr

/-- `struct ChildSpec` (supervisor.h:21-31), restricted to the fields the
restart decision reads. -/
structure ChildSpec where
  id : String
  restart_policy : RestartPolicy
  deriving DecidableEq, Repr

/-- `struct ChildState` (supervisor.h:34-40). -/
structure ChildState where
  pid : Int
  spec : ChildSpec
  restart_count : Nat
  is_alive : Bool
  deriving DecidableEq, Repr

/-- `class Supervisor` (supervisor.h:43-117): strategy, intensity limits,
children, and the recorded restart timestamps (in seconds). -/
structure Supervisor where
  supervisor_pid : Int
  strategy : RestartStrategy
  max_restarts : Nat
  max_time : Nat
  children : List ChildState
  restart_times : List Nat
  deriving DecidableEq, Repr

/-- The outcome of `handle_child_exit`. -/
inductive SupervisorAction where
  | Restarted
  | Escalated
  | NoRestart
  | UnknownChild
  deriving DecidableEq, Repr

namespace Supervisor

/-- Modelled from the spec: `Supervisor::should_restart` (declared
supervisor.h:110, body absent from the sources). §4.5: "`permanent` always
restarts, `transient` restarts only on abnormal exit, `temporary` never
restarts"; a `"normal"` reason is a normal exit. -/
def should_restart (policy : RestartPolicy) (reason : String) : Bool :=
  match policy with
  | RestartPolicy.permanent => true
  | RestartPolicy.temporary => false
  | RestartPolicy.transient => decide (reason ≠ "normal")

/-- Modelled from the spec: `Supervisor::record_restart` together with
`Supervisor::cleanup_restart_records` (declared supervisor.h:113-116, bodies
absent from the sources): record the restart now being decided and keep only
the records inside the trailing `max_time` window. -/
def record_restart (sup : Supervisor) (now : Nat) : Supervisor :=
  { sup with restart_times :=
      ((sup.restart_times ++ [now]).filter (fun t => now ≤ t + sup.max_time)) }

/-- Modelled from the spec: `Supervisor::restart_intensity_exceeded` (declared
supervisor.h:95, body absent from the sources). §4.5: "more than
`max_restarts` restarts inside the trailing `max_time` window"; the §8
example (`max_restarts = 3` and a 4th crash escalating) pins down that the
restart currently being decided counts toward the window. -/
def restart_intensity_exceeded (sup : Supervisor) : Bool :=
  decide (sup.restart_times.length > sup.max_restarts)

/-- Modelled from the spec: `Supervisor::handle_child_exit` (declared
supervisor.h:86, body absent from the sources). §4.5: look the child up by
pid and decide via `should_restart`; if the restart intensity is exceeded,
stop retrying and escalate; otherwise restart per the configured strategy
(the per-strategy choice of WHICH siblings restart is not needed by the
claims and is not modelled). -/
def handle_child_exit (sup : Supervisor) (child_pid : Int) (reason : String)
    (now : Nat) : SupervisorAction × Supervisor :=
  match sup.children.find? (fun c => c.pid = child_pid) with
  | none => (SupervisorAction.UnknownChild, sup)
  | some c =>
      if should_restart c.spec.restart_policy reason then
        let sup1 := record_restart sup now
        if restart_intensity_exceeded sup1 then
          (SupervisorAction.Escalated, sup1)
        else
          (SupervisorAction.Restarted,
           { sup1 with children := (sup1.children.map
               (fun c' => if c'.pid = child_pid then
                   { c' with restart_count := c'.restart_count + 1,
                             is_alive := true }
                 else c')) })
      else (SupervisorAction.NoRestart, sup)

end Supervisor

/-! ## Concrete scenario states used by witnesses and counterexamples -/

/-- A fresh GC whose arenas sit at bases 16 and 524304 (disjoint ranges, as
the two `new uint8_t[...]` arrays are). -/
def gc0 : ActorGC := ActorGC.init 16 524304

/-- One 16-byte allocation in `gc0`, and no registered roots: its data sits at
address 32 and it is unreachable. -/
def gcOneObj : ActorGC := (gc0.allocate 16 0 false).2

/-- The same single-object heap with a root slot holding the object's data
address, keeping it reachable across collections. -/
def gcRooted : ActorGC := gcOneObj.add_root 32

/-- A 128-byte actor heap at base 64. -/
def demoHeap : ActorHeap := { base := 64, total := 128, objects := [] }

/-- A zero-byte actor heap: every allocation in it fails, even after GC. -/
def emptyHeap : ActorHeap := { base := 64, total := 0, objects := [] }

/-- A 3-byte message whose payload lives far outside every demo heap. -/
def demoMsg : Message :=
  { payload := 5000, size := 3, sender_pid := 7, timestamp := 0 }

/-- A `WAITING` actor with room in its heap, used to exercise `send`. -/
def waitingActor : ActorProcess :=
  { pid := 1, heap := demoHeap, mailbox := [], state := ActorState.WAITING,
    reductions := 0, supervisor_pid := -1, caller_pid := -1, exit_msg := "",
    crash_time := 0 }

/-- An actor with one pending message but a heap in which the `Message`
envelope allocation cannot succeed. -/
def starvedActor : ActorProcess :=
  { pid := 2, heap := emptyHeap, mailbox := [demoMsg],
    state := ActorState.RUNNABLE, reductions := 0, supervisor_pid := -1,
    caller_pid := -1, exit_msg := "", crash_time := 0 }

/-- An actor with one pending message and a heap with room for the envelope. -/
def richActor : ActorProcess :=
  { pid := 3, heap := demoHeap, mailbox := [demoMsg],
    state := ActorState.RUNNABLE, reductions := 0, supervisor_pid := -1,
    caller_pid := -1, exit_msg := "", crash_time := 0 }

/-- A `RUNNABLE` actor about to execute a quantum. -/
def runnableActor : ActorProcess :=
  { pid := 4, heap := demoHeap, mailbox := [], state := ActorState.RUNNABLE,
    reductions := 0, supervisor_pid := -1, caller_pid := -1, exit_msg := "",
    crash_time := 0 }

/-- A behavior that raises a fault ("boom") without changing the actor. -/
def crashingBehavior : ActorProcess.BehaviorRun :=
  fun a => (a, some "boom")

/-- A permanently-restarted supervised child with pid 7. -/
def permChild : ChildState :=
  { pid := 7, spec := { id := "worker", restart_policy := RestartPolicy.permanent },
    restart_count := 0, is_alive := true }

/-- A supervisor with `max_restarts = 3`, `max_time = 60 s` and one permanent
child, as in the spec's restart-intensity scenario. -/
def sup0 : Supervisor :=
  { supervisor_pid := 0, strategy := RestartStrategy.ONE_FOR_ONE,
    max_restarts := 3, max_time := 60, children := [permChild],
    restart_times := [] }

/-- The supervisor after the child's first crash, at t = 100 s. -/
def supE1 : Supervisor := (sup0.handle_child_exit 7 "crash" 100).2

/-- After the second crash, at t = 103 s. -/
def supE2 : Supervisor := (supE1.handle_child_exit 7 "crash" 103).2

/-- After the third crash, at t = 106 s. -/
def supE3 : Supervisor := (supE2.handle_child_exit 7 "crash" 106).2

/-! ## Claim theorems -/

/-- Queue invariant: the dequeued log followed by the remaining queue contents
equals the starting contents followed by everything enqueued. -/
theorem runOps_log_append {T : Type} (ops : List (LockFreeQueue.QOp T))
    (q log : List T) :
    (LockFreeQueue.runOps (q, log) ops).2 ++
        (LockFreeQueue.runOps (q, log) ops).1 =
      log ++ q ++ LockFreeQueue.enqValues ops := by
  induction ops generalizing q log with
  | nil => simp [LockFreeQueue.runOps, LockFreeQueue.enqValues]
  | cons op rest ih =>
    cases op with
    | enq v =>
      simp only [LockFreeQueue.runOps, LockFreeQueue.enqueue,
        LockFreeQueue.enqValues, List.filterMap_cons]
      rw [ih]
      simp [LockFreeQueue.enqValues]
    | deq =>
      cases q with
      | nil =>
        simp only [LockFreeQueue.runOps, LockFreeQueue.tryDequeue,
          LockFreeQueue.enqValues, List.filterMap_cons]
        rw [ih]
        simp [LockFreeQueue.enqValues]
      | cons x q' =>
        simp only [LockFreeQueue.runOps, LockFreeQueue.tryDequeue,
          LockFreeQueue.enqValues, List.filterMap_cons]
        rw [ih]
        simp [LockFreeQueue.enqValues]

/-- C10: for every runtime state — whatever is pending in any mailbox and
whatever any reduction counter holds — the C-ABI entry point
`runtime_receive_message()` returns null and `runtime_should_yield()` returns
false: the exported ABI surface can never deliver a message to compiled code
nor signal that it should yield. -/
theorem c10_abi_surface_inert (st : RuntimeState) :
    runtime_receive_message st = none ∧ runtime_should_yield st = false :=
  ⟨rfl, rfl⟩

/-- C6: running any interleaving of enqueues and dequeue attempts on the
mailbox queue from empty, the messages of a fixed sender `S` come back in
exactly the order they were enqueued: the `S`-messages dequeued so far,
followed by the `S`-messages still queued, equal the full `S`-subsequence of
the enqueue order.  Moreover `try_dequeue` returns `none` exactly when the
queue is empty. -/
theorem c6_mailbox_fifo_per_sender (ops : List (LockFreeQueue.QOp Message))
    (S : Int) :
    ((LockFreeQueue.runOps ([], []) ops).2.filter
        (fun m => m.sender_pid = S)) ++
      ((LockFreeQueue.runOps ([], []) ops).1.filter
        (fun m => m.sender_pid = S)) =
      (LockFreeQueue.enqValues ops).filter (fun m => m.sender_pid = S) ∧
    ∀ q : List Message, (LockFreeQueue.tryDequeue q).1 = none ↔ q = [] := by
  constructor
  · rw [← List.filter_append, runOps_log_append]
    simp
  · intro q
    cases q <;> simp [LockFreeQueue.tryDequeue]

/-- C2: whenever the behavior run inside `execute_quantum` raises a fault,
the fault is caught at the quantum boundary and never propagates:
`handle_crash` records the reason and the timestamp and stores `DEAD`, and
`execute_quantum` returns false. -/
theorem c2_quantum_catches_faults (r : ActorProcess)
    (behavior : ActorProcess.BehaviorRun) (r2 : ActorProcess)
    (reason : String) (now : Nat)
    (hRunnable : r.state = ActorState.RUNNABLE)
    (hFault : behavior (ActorProcess.quantumStart r) = (r2, some reason)) :
    ActorProcess.execute_quantum r behavior now =
      (false, { r2 with state := ActorState.DEAD, exit_msg := reason,
                        crash_time := now }) := by
  unfold ActorProcess.execute_quantum
  rw [if_pos hRunnable, hFault]
  rfl

/-- C2 witness: a concrete `RUNNABLE` actor running a behavior that faults
with "boom" at time 5 ends `DEAD` with the reason and timestamp recorded, and
the quantum reports failure. -/
theorem c2_quantum_catches_faults_witness :
    ActorProcess.execute_quantum runnableActor crashingBehavior 5 =
      (false, { ActorProcess.quantumStart runnableActor with
                  state := ActorState.DEAD, exit_msg := "boom",
                  crash_time := 5 }) :=
  c2_quantum_catches_faults runnableActor crashingBehavior
    (ActorProcess.quantumStart runnableActor) "boom" 5 rfl rfl

/-- Numeral form of `2 ^ 31` over the integers. -/
theorem two_pow_31 : (2 : Int) ^ 31 = 2147483648 := by norm_num

/-- Numeral form of `2 ^ 32` over the integers. -/
theorem two_pow_32 : (2 : Int) ^ 32 = 4294967296 := by norm_num

/-- A 32-bit value that does not cross `INT_MIN` is stored unchanged. -/
theorem wrap32_eq_self (x : Int) (hlo : -(2 ^ 31) ≤ x) (hhi : x < 2 ^ 31) :
    wrap32 x = x := by
  unfold wrap32
  simp only [two_pow_31, two_pow_32] at hlo hhi ⊢
  omega

/-- The wrap at `INT_MIN`: decrementing `-2^31` stores `2^31 - 1`. -/
theorem wrap32_intmin_sub_one : wrap32 (-(2 ^ 31) - 1) = 2 ^ 31 - 1 := by
  unfold wrap32
  simp only [two_pow_31, two_pow_32]
  decide

/-- One `should_yield` step of the iterated counter. -/
theorem yieldSteps_succ (r : ActorProcess) (n : Nat) :
    ActorProcess.yieldSteps r (n + 1) =
      (ActorProcess.should_yield (ActorProcess.yieldSteps r n)).2 := rfl

/-- Closed form of the counter: as long as `reductions - n` stays at or above
`INT_MIN`, no intermediate store wraps and `n` calls leave exactly
`reductions - n`. -/
theorem yieldSteps_reductions (r : ActorProcess) :
    ∀ n : Nat, -(2 ^ 31) ≤ r.reductions - (n : Int) → r.reductions < 2 ^ 31 →
      (ActorProcess.yieldSteps r n).reductions = r.reductions - (n : Int) := by
  intro n
  induction n with
  | zero =>
      intro _ _
      show r.reductions = r.reductions - ((0 : Nat) : Int)
      simp
  | succ k ih =>
      intro hlo hhi
      have hcast : ((k + 1 : Nat) : Int) = (k : Int) + 1 := by
        push_cast
        ring
      rw [hcast] at hlo ⊢
      have hlo' : -(2 ^ 31) ≤ r.reductions - (k : Int) := by
        simp only [two_pow_31] at hlo ⊢
        omega
      have hk := ih hlo' hhi
      have hlo2 : -(2 ^ 31) ≤ r.reductions - (k : Int) - 1 := by
        simp only [two_pow_31] at hlo ⊢
        omega
      have hhi2 : r.reductions - (k : Int) - 1 < 2 ^ 31 := by
        simp only [two_pow_31] at hhi ⊢
        omega
      show wrap32 ((ActorProcess.yieldSteps r k).reductions - 1) =
        r.reductions - ((k : Int) + 1)
      rw [hk, wrap32_eq_self (r.reductions - (k : Int) - 1) hlo2 hhi2]
      ring

/-- C8 counterexample: the reduction counter is a 32-bit `int`, and within a
single quantum (no reset anywhere in the call chain) the 2001 + 2^31-th
`should_yield()` call wraps it from `INT_MIN` back up to `INT_MAX` — the
counter increases without a quantum reset — after which the next call returns
false again even though the 2000-call budget was exhausted long before. -/
theorem c8_wrap_counterexample :
    (ActorProcess.yieldSteps (ActorProcess.quantumStart runnableActor)
        (2000 + 2 ^ 31)).reductions = -(2 ^ 31) ∧
      (ActorProcess.yieldSteps (ActorProcess.quantumStart runnableActor)
          (2000 + 2 ^ 31 + 1)).reductions = 2 ^ 31 - 1 ∧
      (ActorProcess.should_yield
          (ActorProcess.yieldSteps (ActorProcess.quantumStart runnableActor)
            (2000 + 2 ^ 31 + 1))).1 = false := by
  have hred : (ActorProcess.quantumStart runnableActor).reductions = 2000 :=
    rfl
  have hcNat : ((2000 + 2 ^ 31 : Nat) : Int) = 2000 + 2 ^ 31 := by
    push_cast
  have hlo : -(2 ^ 31) ≤ (ActorProcess.quantumStart runnableActor).reductions -
      ((2000 + 2 ^ 31 : Nat) : Int) := by
    rw [hred, hcNat]
    simp only [two_pow_31]
    omega
  have hhi : (ActorProcess.quantumStart runnableActor).reductions < 2 ^ 31 := by
    rw [hred]
    simp only [two_pow_31]
    omega
  have hA : (ActorProcess.yieldSteps (ActorProcess.quantumStart runnableActor)
      (2000 + 2 ^ 31)).reductions = -(2 ^ 31) := by
    have hcf := yieldSteps_reductions
      (ActorProcess.quantumStart runnableActor) (2000 + 2 ^ 31) hlo hhi
    rw [hcf, hred, hcNat]
    ring
  have hB : (ActorProcess.yieldSteps (ActorProcess.quantumStart runnableActor)
      (2000 + 2 ^ 31 + 1)).reductions = 2 ^ 31 - 1 := by
    rw [yieldSteps_succ]
    simp only [ActorProcess.should_yield]
    rw [hA, wrap32_intmin_sub_one]
  refine ⟨hA, hB, ?_⟩
  simp only [ActorProcess.should_yield]
  rw [hB]
  simp only [two_pow_31]
  decide

/-- C8 (amended): within one quantum — which hands the behavior the state
`quantumStart r`, with the 32-bit reduction counter reset to the fixed budget
of 2000 — for every `n` up to `2000 + 2^31` calls to `should_yield()` the
counter is exactly `2000 - n` (each call decreases it by exactly one and
nothing increases it), and the next call returns `false` while `n < 2000` and
`true` from the 2001st call on; one call later the counter wraps from
`INT_MIN` to `INT_MAX` and the pattern breaks. -/
theorem c8_reduction_budget (r : ActorProcess) (n : Nat)
    (hn : (n : Int) ≤ 2000 + 2 ^ 31) :
    (ActorProcess.yieldSteps (ActorProcess.quantumStart r) n).reductions =
        REDUCTIONS_PER_SLICE - (n : Int) ∧
      (ActorProcess.should_yield
          (ActorProcess.yieldSteps (ActorProcess.quantumStart r) n)).1 =
        decide (REDUCTIONS_PER_SLICE ≤ (n : Int)) := by
  have hred : (ActorProcess.quantumStart r).reductions = 2000 := rfl
  have hlo : -(2 ^ 31) ≤ (ActorProcess.quantumStart r).reductions -
      (n : Int) := by
    rw [hred]
    simp only [two_pow_31] at hn ⊢
    omega
  have hhi : (ActorProcess.quantumStart r).reductions < 2 ^ 31 := by
    rw [hred]
    simp only [two_pow_31]
    omega
  have hcf := yieldSteps_reductions (ActorProcess.quantumStart r) n hlo hhi
  rw [hred] at hcf
  have h1 : (ActorProcess.yieldSteps (ActorProcess.quantumStart r)
      n).reductions = REDUCTIONS_PER_SLICE - (n : Int) := hcf
  refine ⟨h1, ?_⟩
  simp only [ActorProcess.should_yield, h1]
  rw [decide_eq_decide]
  show REDUCTIONS_PER_SLICE - (n : Int) ≤ 0 ↔ _
  unfold REDUCTIONS_PER_SLICE
  omega

/-- C8 witness: after exactly 2000 calls the counter sits at 0 and the 2001st
call reports exhaustion. -/
theorem c8_reduction_budget_witness :
    (ActorProcess.yieldSteps (ActorProcess.quantumStart runnableActor)
        2000).reductions = REDUCTIONS_PER_SLICE - ((2000 : Nat) : Int) ∧
      (ActorProcess.should_yield
          (ActorProcess.yieldSteps (ActorProcess.quantumStart runnableActor)
            2000)).1 = decide (REDUCTIONS_PER_SLICE ≤ ((2000 : Nat) : Int)) :=
  c8_reduction_budget runnableActor 2000 (by decide)

/-- C9: whenever `handle_child_exit` finds the child and its policy calls for
a restart, the supervisor escalates instead of restarting exactly when the
restart being decided pushes the count of restarts inside the trailing
`max_time` window above `max_restarts`; below the limit it restarts. -/
theorem c9_escalates_on_intensity (sup : Supervisor) (child_pid : Int)
    (reason : String) (now : Nat) (c : ChildState)
    (hFind : sup.children.find? (fun x => x.pid = child_pid) = some c)
    (hPolicy : Supervisor.should_restart c.spec.restart_policy reason = true) :
    ((sup.record_restart now).restart_intensity_exceeded = true →
        (sup.handle_child_exit child_pid reason now).1 =
          SupervisorAction.Escalated) ∧
      ((sup.record_restart now).restart_intensity_exceeded = false →
        (sup.handle_child_exit child_pid reason now).1 =
          SupervisorAction.Restarted) := by
  unfold Supervisor.handle_child_exit
  rw [hFind]
  simp only [hPolicy, if_true]
  constructor <;> intro h <;> simp [h]

/-- C9 witness: with `max_restarts = 3`, `max_time = 60 s`, four crashes of
the same permanent child at 100 s, 103 s, 106 s and 109 s (all within 10 s):
the first three exits restart the child and the fourth escalates. -/
theorem c9_escalates_on_intensity_witness :
    (sup0.handle_child_exit 7 "crash" 100).1 = SupervisorAction.Restarted ∧
    (supE1.handle_child_exit 7 "crash" 103).1 = SupervisorAction.Restarted ∧
    (supE2.handle_child_exit 7 "crash" 106).1 = SupervisorAction.Restarted ∧
    (supE3.handle_child_exit 7 "crash" 109).1 = SupervisorAction.Escalated :=
  ⟨(c9_escalates_on_intensity sup0 7 "crash" 100 permChild (by decide)
      rfl).2 (by decide),
   (c9_escalates_on_intensity supE1 7 "crash" 103
      { permChild with restart_count := 1 } (by decide) rfl).2 (by decide),
   (c9_escalates_on_intensity supE2 7 "crash" 106
      { permChild with restart_count := 2 } (by decide) rfl).2 (by decide),
   (c9_escalates_on_intensity supE3 7 "crash" 109
      { permChild with restart_count := 3 } (by decide) rfl).1 (by decide)⟩

/-- C1 (code-bug evidence): a fresh GC holding one 16-byte object with no
registered roots — the object is unreachable, so the claim requires its bytes
to be reclaimed by `collect_full()`.  Instead the collection leaves the young
generation's used-size at 32 bytes and the object in place, while the
statistics nonetheless count 1 object and 16 bytes as freed: `sweep_young`
never resets the young bump pointer. -/
theorem c1_collect_full_young_not_reclaimed :
    gcOneObj.roots = [] ∧
    gcOneObj.young.used = 32 ∧
    gcOneObj.collect_full.young.used = 32 ∧
    gcOneObj.collect_full.young.objects.length = 1 ∧
    gcOneObj.collect_full.objects_freed = gcOneObj.objects_freed + 1 ∧
    gcOneObj.collect_full.bytes_freed = gcOneObj.bytes_freed + 16 := by
  decide

/-- C3 (code-bug evidence): every `collect_young()` unconditionally empties
the young generation, destroying survivors below the promotion age.  A 16-byte
object that stays rooted across three consecutive `collect_young()` calls is
therefore wiped by the first one, its recorded age never passes 1 (so
`should_promote` can never answer yes), and it is never relocated to the old
generation: the old generation stays empty and the promotions counter stays
0. -/
theorem c3_promotion_never_occurs :
    (∀ st : ActorGC, st.collect_young.young.objects = []) ∧
    gcRooted.collect_young.young.objects = [] ∧
    ActorGC.ageGet
        gcRooted.collect_young.collect_young.collect_young.allocation_age 16 =
      some 1 ∧
    gcRooted.collect_young.collect_young.collect_young.old.objects = [] ∧
    gcRooted.collect_young.collect_young.collect_young.promotions = 0 := by
  exact ⟨fun st => rfl, by decide, by decide, by decide, by decide⟩

/-- C5 counterexample: an actor with a non-empty mailbox whose heap cannot
hold the `Message` envelope — `receive()` dequeues the message anyway, drops
it, returns null and sets the caller `WAITING`, contradicting the claim that
a non-empty mailbox yields a non-null result and no `WAITING` transition. -/
theorem c5_receive_drop_counterexample :
    starvedActor.mailbox ≠ [] ∧
    starvedActor.receive.1 = none ∧
    starvedActor.receive.2.state = ActorState.WAITING ∧
    starvedActor.receive.2.mailbox = [] := by
  decide

/-- C5 (amended): `receive()` never blocks; on an empty mailbox it returns
null and sets `WAITING`; on a non-empty mailbox it dequeues exactly one
message and, when the heap allocation for the returned `Message` envelope
succeeds, returns it without touching the state — but when that allocation
fails the dequeued message is dropped, null is returned and the state is set
to `WAITING`. -/
theorem c5_receive_amended (r : ActorProcess) (m : Message)
    (rest : List Message) :
    (r.mailbox = [] →
       r.receive = (none, { r with state := ActorState.WAITING })) ∧
    (r.mailbox = m :: rest →
       (r.heap.allocate MESSAGE_SIZEOF).1.isSome = true →
       r.receive = (some m,
         { r with mailbox := rest,
                  heap := (r.heap.allocate MESSAGE_SIZEOF).2 })) ∧
    (r.mailbox = m :: rest →
       (r.heap.allocate MESSAGE_SIZEOF).1 = none →
       r.receive = (none,
         { r with mailbox := rest,
                  heap := (r.heap.allocate MESSAGE_SIZEOF).2,
                  state := ActorState.WAITING })) := by
  refine ⟨?_, ?_, ?_⟩
  · intro hmb
    unfold ActorProcess.receive
    rw [hmb]
  · intro hmb hSome
    unfold ActorProcess.receive
    rw [hmb]
    rcases hA : r.heap.allocate MESSAGE_SIZEOF with ⟨p, h1⟩
    cases p with
    | none => rw [hA] at hSome; simp at hSome
    | some a => rfl
  · intro hmb hNone
    unfold ActorProcess.receive
    rw [hmb]
    rcases hA : r.heap.allocate MESSAGE_SIZEOF with ⟨p, h1⟩
    cases p with
    | none => rfl
    | some a => rw [hA] at hNone; simp at hNone

/-- C5 witness: an actor with one pending message and room for the envelope
receives exactly that message, keeps its state, and consumes the mailbox
entry. -/
theorem c5_receive_amended_witness :
    richActor.receive = (some demoMsg,
      { richActor with mailbox := [],
                       heap := (richActor.heap.allocate MESSAGE_SIZEOF).2 }) :=
  (c5_receive_amended richActor demoMsg []).2.1 rfl (by decide)

/-! Counter-preservation lemmas: none of the marking, evacuation, sweeping or
compaction passes touches the `young_collections` counter; only the epilogue
of `collect_young` increments it. -/

theorem setMarked_young_collections (st : ActorGC) (isYoung : Bool) (i : Nat) :
    (st.setMarked isYoung i).young_collections = st.young_collections := by
  unfold ActorGC.setMarked
  split <;> rfl

theorem foldl_young_collections {α : Type} (f : ActorGC → α → ActorGC)
    (hf : ∀ (s : ActorGC) (a : α),
      (f s a).young_collections = s.young_collections) :
    ∀ (l : List α) (st : ActorGC),
      (List.foldl f st l).young_collections = st.young_collections := by
  intro l
  induction l with
  | nil => intro st; rfl
  | cons a rest ih =>
      intro st
      rw [List.foldl_cons, ih, hf]

theorem markLoop_young_collections (fuel : Nat) :
    ∀ (st : ActorGC) (stack : List (Bool × Nat)),
      (ActorGC.markLoop fuel st stack).young_collections =
        st.young_collections := by
  induction fuel with
  | zero => intro st stack; rfl
  | succ k ih =>
      intro st stack
      cases stack with
      | nil => rfl
      | cons top rest =>
          rcases top with ⟨isYoung, i⟩
          unfold ActorGC.markLoop
          split
          · rw [ih]
          · split
            · rw [ih]
            · rw [ih, setMarked_young_collections]

theorem mark_from_roots_young_collections (st : ActorGC) :
    st.mark_from_roots.young_collections = st.young_collections := by
  unfold ActorGC.mark_from_roots
  refine foldl_young_collections _ ?_ st.roots st
  intro s rv
  split
  · rfl
  · split
    · rw [markLoop_young_collections]
    · rfl

theorem rememberedScan_young_collections (st : ActorGC) :
    st.rememberedScan.young_collections = st.young_collections := by
  unfold ActorGC.rememberedScan
  refine foldl_young_collections _ ?_ st.remembered st
  intro s h
  split
  · rfl
  · split
    · rfl
    · split
      · refine foldl_young_collections _ ?_ _ _
        intro s2 w
        split
        · rfl
        · split
          · split
            · rw [markLoop_young_collections]
            · rfl
          · rfl
      · rfl

theorem should_promote_young_collections (st : ActorGC) (hdrAddr : Nat) :
    (st.should_promote hdrAddr).2.young_collections = st.young_collections := by
  unfold ActorGC.should_promote
  split <;> rfl

theorem promote_to_old_young_collections (st : ActorGC) (o : GCObject) :
    (st.promote_to_old o).young_collections = st.young_collections := by
  unfold ActorGC.promote_to_old
  split <;> rfl

theorem evacuateAux_young_collections (l : List GCObject) :
    ∀ (pos : Nat) (st : ActorGC),
      (ActorGC.evacuateAux l pos st).young_collections =
        st.young_collections := by
  induction l with
  | nil => intro pos st; rfl
  | cons o rest ih =>
      intro pos st
      unfold ActorGC.evacuateAux
      split
      · rw [ih]
        split
        · rw [promote_to_old_young_collections,
            should_promote_young_collections]
        · rw [should_promote_young_collections]
      · rw [ih]

theorem collect_young_young_collections (st : ActorGC) :
    st.collect_young.young_collections = st.young_collections + 1 := by
  show (ActorGC.evacuate_survivors
      (ActorGC.rememberedScan st.mark_from_roots)).young_collections + 1 = _
  unfold ActorGC.evacuate_survivors
  rw [evacuateAux_young_collections, rememberedScan_young_collections,
    mark_from_roots_young_collections]

theorem sweep_young_young_collections (st : ActorGC) :
    st.sweep_young.young_collections = st.young_collections := rfl

theorem sweep_old_young_collections (st : ActorGC) :
    st.sweep_old.young_collections = st.young_collections := rfl

theorem collect_full_young_collections (st : ActorGC) :
    st.collect_full.young_collections = st.young_collections := by
  show (if _ then _ else _ : ActorGC).young_collections = _
  split
  · show (ActorGC.compact_old_generation _).young_collections = _
    rw [show ∀ s : ActorGC, (ActorGC.compact_old_generation s).young_collections
          = s.young_collections from fun s => rfl]
    rw [sweep_old_young_collections, sweep_young_young_collections,
      mark_from_roots_young_collections]
  · rw [sweep_old_young_collections, sweep_young_young_collections,
      mark_from_roots_young_collections]

theorem allocOld_young_collections (st : ActorGC) (size type_id : Nat)
    (has_refs : Bool) :
    (st.allocOld size type_id has_refs).2.young_collections =
      st.young_collections := by
  unfold ActorGC.allocOld
  split <;> rfl

theorem allocate_old_young_collections (st : ActorGC) (size type_id : Nat)
    (has_refs : Bool) :
    (st.allocate_old size type_id has_refs).2.young_collections =
      st.young_collections := by
  unfold ActorGC.allocate_old
  rcases hA : st.allocOld size type_id has_refs with ⟨p, st1⟩
  have h1 : st1.young_collections = st.young_collections := by
    have := allocOld_young_collections st size type_id has_refs
    rw [hA] at this
    exact this
  cases p with
  | some a => exact h1
  | none =>
      rw [allocOld_young_collections, collect_full_young_collections]
      exact h1

theorem allocYoung_young_collections (st : ActorGC) (size type_id : Nat)
    (has_refs : Bool) :
    (st.allocYoung size type_id has_refs).2.young_collections =
      st.young_collections := by
  unfold ActorGC.allocYoung
  split <;> rfl

theorem allocYoung_old_collections (st : ActorGC) (size type_id : Nat)
    (has_refs : Bool) :
    (st.allocYoung size type_id has_refs).2.old_collections =
      st.old_collections := by
  unfold ActorGC.allocYoung
  split <;> rfl

theorem allocOld_fst_none_iff (st : ActorGC) (size type_id : Nat)
    (has_refs : Bool) :
    (st.allocOld size type_id has_refs).1 = none ↔
      st.old.size < st.old.used + (GC_HEADER_SIZE + align16 size) := by
  by_cases hc : st.old.used + (GC_HEADER_SIZE + align16 size) > st.old.size
  · unfold ActorGC.allocOld
    rw [if_pos hc]
    simpa using hc
  · unfold ActorGC.allocOld
    rw [if_neg hc]
    constructor
    · intro h
      simp at h
    · intro h
      exact absurd h (by omega)

theorem allocate_old_none_iff (st : ActorGC) (size type_id : Nat)
    (has_refs : Bool) :
    (st.allocate_old size type_id has_refs).1 = none ↔
      (st.old.size < st.old.used + (GC_HEADER_SIZE + align16 size) ∧
        st.collect_full.old.size <
          st.collect_full.old.used + (GC_HEADER_SIZE + align16 size)) := by
  by_cases hc : st.old.used + (GC_HEADER_SIZE + align16 size) > st.old.size
  · have h1 : st.allocOld size type_id has_refs = (none, st) := by
      unfold ActorGC.allocOld
      rw [if_pos hc]
    unfold ActorGC.allocate_old
    simp only [h1]
    rw [allocOld_fst_none_iff]
    constructor
    · intro h
      exact ⟨by omega, h⟩
    · intro h
      exact h.2
  · have h1 : st.allocOld size type_id has_refs =
        (some (st.oldBase + st.old.used + GC_HEADER_SIZE),
         { st with old := { st.old with objects := st.old.objects ++
             [{ size := align16 size, generation := 1, marked := false,
                pinned := false, has_refs := has_refs, type_id := type_id,
                data := List.replicate (align16 size) 0 }] } }) := by
      unfold ActorGC.allocOld
      rw [if_neg hc]
    unfold ActorGC.allocate_old
    simp only [h1]
    constructor
    · intro h
      simp at h
    · intro h
      exact absurd h.1 (by omega)

/-- C7: `allocate` bump-allocates in the young generation first (returning
the next young bump address and running no collection when it fits); when the
young arena cannot fit the request it runs `collect_young()` (the young
collection counter goes up by one on every such path) and retries the — now
empty — young arena; and the result is null exactly when the request does not
fit the current young arena, does not fit the emptied young arena, and does
not fit the old arena either before or after the `collect_full()` that
`allocate_old` runs: both generations exhausted after collection. -/
theorem c7_allocate_order_and_exhaustion (st : ActorGC) (size type_id : Nat)
    (has_refs : Bool) :
    (st.young.used + (GC_HEADER_SIZE + align16 size) ≤ st.young.size →
       (st.allocate size type_id has_refs).1 =
           some (st.youngBase + st.young.used + GC_HEADER_SIZE) ∧
         (st.allocate size type_id has_refs).2.young_collections =
           st.young_collections ∧
         (st.allocate size type_id has_refs).2.old_collections =
           st.old_collections) ∧
    (st.young.size < st.young.used + (GC_HEADER_SIZE + align16 size) →
       (st.allocate size type_id has_refs).2.young_collections =
         st.young_collections + 1) ∧
    ((st.allocate size type_id has_refs).1 = none ↔
       st.young.size < st.young.used + (GC_HEADER_SIZE + align16 size) ∧
       st.collect_young.young.size < GC_HEADER_SIZE + align16 size ∧
       st.collect_young.old.size <
         st.collect_young.old.used + (GC_HEADER_SIZE + align16 size) ∧
       st.collect_young.collect_full.old.size <
         st.collect_young.collect_full.old.used +
           (GC_HEADER_SIZE + align16 size)) := by
  by_cases h1 : st.young.used + (GC_HEADER_SIZE + align16 size) >
      st.young.size
  · -- the young arena cannot fit the request
    have hA1 : st.allocYoung size type_id has_refs = (none, st) := by
      unfold ActorGC.allocYoung
      rw [if_pos h1]
    have hXused : st.collect_young.young.used = 0 := rfl
    by_cases h2 : st.collect_young.young.used +
        (GC_HEADER_SIZE + align16 size) > st.collect_young.young.size
    · -- the retry in the emptied young arena fails too
      have hA2 : st.collect_young.allocYoung size type_id has_refs =
          (none, st.collect_young) := by
        unfold ActorGC.allocYoung
        rw [if_pos h2]
      rcases hA3 : st.collect_young.allocate_old size type_id has_refs
        with ⟨p3, st4⟩
      have hyc4 : st4.young_collections = st.young_collections + 1 := by
        have hh := allocate_old_young_collections st.collect_young size
          type_id has_refs
        rw [hA3] at hh
        rw [hh, collect_young_young_collections]
      cases p3 with
      | some a =>
          have hAll : st.allocate size type_id has_refs =
              (some a, ActorGC.bumpAllocStats st4 size) := by
            unfold ActorGC.allocate
            simp only [hA1, hA2, hA3]
          refine ⟨fun hle => absurd hle (by omega), fun _ => ?_, ?_⟩
          · rw [hAll]
            exact hyc4
          · rw [hAll]
            constructor
            · intro hcontra
              simp at hcontra
            · rintro ⟨hc1, hc2, hc3, hc4⟩
              have hn := (allocate_old_none_iff st.collect_young size type_id
                has_refs).mpr ⟨hc3, hc4⟩
              rw [hA3] at hn
              simp at hn
      | none =>
          have hAll : st.allocate size type_id has_refs = (none, st4) := by
            unfold ActorGC.allocate
            simp only [hA1, hA2, hA3]
          have hn := (allocate_old_none_iff st.collect_young size type_id
            has_refs).mp (by rw [hA3])
          refine ⟨fun hle => absurd hle (by omega), fun _ => ?_, ?_⟩
          · rw [hAll]
            exact hyc4
          · rw [hAll]
            constructor
            · intro _
              exact ⟨by omega, by omega, hn.1, hn.2⟩
            · intro _
              rfl
    · -- the retry in the emptied young arena succeeds
      have hA2 : st.collect_young.allocYoung size type_id has_refs =
          (some (st.collect_young.youngBase + st.collect_young.young.used +
              GC_HEADER_SIZE),
           (st.collect_young.allocYoung size type_id has_refs).2) := by
        unfold ActorGC.allocYoung
        rw [if_neg h2]
      have hycY : (st.collect_young.allocYoung size type_id
          has_refs).2.young_collections = st.young_collections + 1 := by
        rw [allocYoung_young_collections, collect_young_young_collections]
      have hAll : st.allocate size type_id has_refs =
          (some (st.collect_young.youngBase + st.collect_young.young.used +
              GC_HEADER_SIZE),
           ActorGC.bumpAllocStats
             (st.collect_young.allocYoung size type_id has_refs).2 size) := by
        unfold ActorGC.allocate
        simp only [hA1]
        rw [hA2]
      refine ⟨fun hle => absurd hle (by omega), fun _ => ?_, ?_⟩
      · rw [hAll]
        exact hycY
      · rw [hAll]
        constructor
        · intro hcontra
          simp at hcontra
        · rintro ⟨hc1, hc2, hc3, hc4⟩
          exact absurd hc2 (by omega)
  · -- fast path: the young arena fits the request
    have hA1 : st.allocYoung size type_id has_refs =
        (some (st.youngBase + st.young.used + GC_HEADER_SIZE),
         (st.allocYoung size type_id has_refs).2) := by
      unfold ActorGC.allocYoung
      rw [if_neg h1]
    have hAll : st.allocate size type_id has_refs =
        (some (st.youngBase + st.young.used + GC_HEADER_SIZE),
         ActorGC.bumpAllocStats (st.allocYoung size type_id has_refs).2
           size) := by
      unfold ActorGC.allocate
      rw [hA1]
    refine ⟨fun _ => ?_, fun hlt => absurd hlt (by omega), ?_⟩
    · rw [hAll]
      refine ⟨rfl, ?_, ?_⟩
      · show (st.allocYoung size type_id has_refs).2.young_collections = _
        rw [allocYoung_young_collections]
      · show (st.allocYoung size type_id has_refs).2.old_collections = _
        rw [allocYoung_old_collections]
    · rw [hAll]
      constructor
      · intro hcontra
        simp at hcontra
      · rintro ⟨hc1, _, _, _⟩
        exact absurd hc1 (by omega)

/-- C7 witness: in a fresh GC a 16-byte request fits the young arena and is
served at the first young bump address with no collection run. -/
theorem c7_allocate_order_and_exhaustion_witness :
    (gc0.allocate 16 0 false).1 = some 32 ∧
      (gc0.allocate 16 0 false).2.young_collections = 0 ∧
      (gc0.allocate 16 0 false).2.old_collections = 0 :=
  (c7_allocate_order_and_exhaustion gc0 16 0 false).1 (by decide)

/-! Heap lemmas for the `send` payload-copy claim. -/

theorem collect_garbage_base (h : ActorHeap) :
    h.collect_garbage.base = h.base := rfl

theorem collect_garbage_total (h : ActorHeap) :
    h.collect_garbage.total = h.total := rfl

theorem heap_allocate_snd_base (h : ActorHeap) (size : Nat) :
    (h.allocate size).2.base = h.base := by
  unfold ActorHeap.allocate
  split
  · split <;> rfl
  · rfl

theorem heap_allocate_snd_total (h : ActorHeap) (size : Nat) :
    (h.allocate size).2.total = h.total := by
  unfold ActorHeap.allocate
  split
  · split <;> rfl
  · rfl

/-- A successful `ActorHeap::allocate` extends either the original heap or its
collected version with one fresh 8-aligned object, and returns the data
address right after the bump point. -/
theorem heap_allocate_some_spec (h : ActorHeap) (size addr : Nat)
    (h' : ActorHeap) (hA : h.allocate size = (some addr, h')) :
    ∃ h0 : ActorHeap,
      h0.base = h.base ∧ h0.total = h.total ∧
      h0.used + (HEAP_HEADER_SIZE + align8 size) ≤ h.total ∧
      addr = h.base + h0.used + HEAP_HEADER_SIZE ∧
      h' = { h0 with objects := h0.objects ++
        [{ size := align8 size, marked := false,
           data := List.replicate (align8 size) 0 }] } := by
  unfold ActorHeap.allocate at hA
  by_cases hc1 : h.used + (HEAP_HEADER_SIZE + align8 size) > h.total
  · rw [if_pos hc1] at hA
    by_cases hc2 : h.collect_garbage.used + (HEAP_HEADER_SIZE + align8 size) >
        h.collect_garbage.total
    · rw [if_pos hc2] at hA
      simp at hA
    · rw [if_neg hc2] at hA
      rw [Prod.mk.injEq] at hA
      obtain ⟨hA1, hA2⟩ := hA
      rw [Option.some_inj] at hA1
      refine ⟨h.collect_garbage, rfl, rfl, ?_, ?_, ?_⟩
      · have hTot2 := collect_garbage_total h
        omega
      · rw [← hA1]
        rfl
      · rw [← hA2]
        rfl
  · rw [if_neg hc1] at hA
    rw [Prod.mk.injEq] at hA
    obtain ⟨hA1, hA2⟩ := hA
    rw [Option.some_inj] at hA1
    refine ⟨h, rfl, rfl, by omega, ?_, ?_⟩
    · rw [← hA1]
      rfl
    · rw [← hA2]
      rfl

theorem writeLast_append (h : ActorHeap) (objs : List HeapObj) (o : HeapObj)
    (bytes : List Nat) :
    ActorHeap.writeLast { h with objects := objs ++ [o] } bytes =
      { h with objects :=
          objs ++ [{ o with data := bytes ++ o.data.drop bytes.length }] } := by
  unfold ActorHeap.writeLast
  have h1 : (objs ++ [o]).getLast? = some o := by simp
  have h2 : (objs ++ [o]).dropLast = objs := by simp
  simp only [h1, h2]

theorem readAtAux_last (base len : Nat) (o : HeapObj) :
    ∀ (objs : List HeapObj) (off addr : Nat),
      addr = base + off +
          (objs.map (fun x => HEAP_HEADER_SIZE + x.size)).sum +
          HEAP_HEADER_SIZE →
      ActorHeap.readAtAux base addr len off (objs ++ [o]) =
        some (o.data.take len) := by
  intro objs
  induction objs with
  | nil =>
      intro off addr haddr
      simp only [List.map_nil, List.sum_nil, Nat.add_zero] at haddr
      show ActorHeap.readAtAux base addr len off [o] = _
      unfold ActorHeap.readAtAux
      rw [if_pos (by omega)]
  | cons x rest ih =>
      intro off addr haddr
      simp only [List.map_cons, List.sum_cons] at haddr
      have hH : HEAP_HEADER_SIZE = 16 := rfl
      show ActorHeap.readAtAux base addr len off (x :: (rest ++ [o])) = _
      unfold ActorHeap.readAtAux
      rw [if_neg (by omega)]
      exact ih (off + HEAP_HEADER_SIZE + x.size) addr (by omega)

/-- Reading the data address right after `h0`'s bump point in `h0` extended
with one fresh object yields that object's data. -/
theorem readAt_appended (h0 : ActorHeap) (o : HeapObj) (len : Nat) :
    ActorHeap.readAt { h0 with objects := h0.objects ++ [o] }
        (h0.base + h0.used + HEAP_HEADER_SIZE) len =
      some (o.data.take len) := by
  unfold ActorHeap.readAt
  exact readAtAux_last h0.base len o h0.objects 0
    (h0.base + h0.used + HEAP_HEADER_SIZE)
    (by unfold ActorHeap.used; omega)

/-- The success tail of `send`, given the shape of the freshly allocated
heap: the enqueued message's payload address is the fresh in-heap address,
its bytes read back equal the source bytes, and a `WAITING` receiver is woken
to `RUNNABLE`. -/
theorem sendFinish_spec (r : ActorProcess) (msg : Message) (src : List Nat)
    (now : Nat) (h0 : ActorHeap) (addr : Nat)
    (hLen : src.length = msg.size)
    (hBase : h0.base = r.heap.base)
    (hBound : h0.used + (HEAP_HEADER_SIZE + align8 msg.size) ≤ r.heap.total)
    (haddr : addr = r.heap.base + h0.used + HEAP_HEADER_SIZE)
    (hIso : msg.payload < r.heap.base ∨
      r.heap.base + r.heap.total < msg.payload) :
    ∃ m' : Message,
      (ActorProcess.sendFinish r
          { h0 with objects := h0.objects ++
            [{ size := align8 msg.size, marked := false,
               data := List.replicate (align8 msg.size) 0 }] }
          addr msg src now).2.mailbox = r.mailbox ++ [m'] ∧
      m'.size = msg.size ∧
      m'.sender_pid = msg.sender_pid ∧
      r.heap.base ≤ m'.payload ∧
      m'.payload ≤ r.heap.base + r.heap.total ∧
      m'.payload ≠ msg.payload ∧
      (ActorProcess.sendFinish r
          { h0 with objects := h0.objects ++
            [{ size := align8 msg.size, marked := false,
               data := List.replicate (align8 msg.size) 0 }] }
          addr msg src now).2.heap.readAt m'.payload msg.size = some src ∧
      (ActorProcess.sendFinish r
          { h0 with objects := h0.objects ++
            [{ size := align8 msg.size, marked := false,
               data := List.replicate (align8 msg.size) 0 }] }
          addr msg src now).2.state =
        (if r.state = ActorState.WAITING then ActorState.RUNNABLE
         else r.state) := by
  refine ⟨{ payload := addr, size := msg.size, sender_pid := msg.sender_pid,
            timestamp := now }, rfl, rfl, rfl, ?_, ?_, ?_, ?_, rfl⟩
  · show r.heap.base ≤ addr
    omega
  · show addr ≤ r.heap.base + r.heap.total
    omega
  · show addr ≠ msg.payload
    omega
  show (ActorHeap.writeLast _ (src.take msg.size)).readAt addr msg.size =
    some src
  rw [writeLast_append]
  have hsrc : src.take msg.size = src := by
    rw [← hLen, List.take_length]
  rw [hsrc]
  have hread := readAt_appended h0
    { size := align8 msg.size, marked := false,
      data := src ++ (List.replicate (align8 msg.size) 0).drop src.length }
    msg.size
  rw [haddr, ← hBase]
  rw [hread]
  rw [← hLen, List.take_left]

/-- C4: a successful `send(msg)` copies the payload bytes into the receiver's
own heap — the enqueued message's payload address lies inside the receiver's
heap range and differs from `msg.payload` (which, by heap isolation, lies
outside it) while holding equal bytes — enqueues it at the mailbox tail, and
wakes a `WAITING` receiver to `RUNNABLE`, leaving every other state
unchanged. -/
theorem c4_send_copies_payload_and_wakes (r : ActorProcess) (msg : Message)
    (src : List Nat) (now : Nat)
    (hLen : src.length = msg.size)
    (hIso : msg.payload < r.heap.base ∨
      r.heap.base + r.heap.total < msg.payload)
    (hOk : (r.send msg src now).1 = true) :
    ∃ m' : Message,
      (r.send msg src now).2.mailbox = r.mailbox ++ [m'] ∧
      m'.size = msg.size ∧
      m'.sender_pid = msg.sender_pid ∧
      r.heap.base ≤ m'.payload ∧
      m'.payload ≤ r.heap.base + r.heap.total ∧
      m'.payload ≠ msg.payload ∧
      (r.send msg src now).2.heap.readAt m'.payload msg.size = some src ∧
      (r.send msg src now).2.state =
        (if r.state = ActorState.WAITING then ActorState.RUNNABLE
         else r.state) := by
  rcases hA : r.heap.allocate msg.size with ⟨p, h1⟩
  cases p with
  | some addr =>
      have hSend : r.send msg src now =
          ActorProcess.sendFinish r h1 addr msg src now := by
        unfold ActorProcess.send
        simp only [hA]
      rw [hSend]
      obtain ⟨h0, hBase, hTot, hBound, haddr, hShape⟩ :=
        heap_allocate_some_spec r.heap msg.size addr h1 hA
      rw [hShape]
      exact sendFinish_spec r msg src now h0 addr hLen hBase
        (by omega) haddr hIso
  | none =>
      rcases hA2 : h1.collect_garbage.allocate msg.size with ⟨p2, h3⟩
      cases p2 with
      | none =>
          have hSend : (r.send msg src now).1 = false := by
            unfold ActorProcess.send
            simp only [hA, hA2]
          rw [hSend] at hOk
          exact Bool.noConfusion hOk
      | some addr =>
          have hSend : r.send msg src now =
              ActorProcess.sendFinish r h3 addr msg src now := by
            unfold ActorProcess.send
            simp only [hA, hA2]
          rw [hSend]
          have hb1 : h1.base = r.heap.base := by
            have hh := heap_allocate_snd_base r.heap msg.size
            rw [hA] at hh
            exact hh
          have ht1 : h1.total = r.heap.total := by
            have hh := heap_allocate_snd_total r.heap msg.size
            rw [hA] at hh
            exact hh
          obtain ⟨h0, hBase, hTot, hBound, haddr, hShape⟩ :=
            heap_allocate_some_spec h1.collect_garbage msg.size addr h3 hA2
          rw [hShape]
          refine sendFinish_spec r msg src now h0 addr hLen ?_ ?_ ?_ hIso
          · rw [hBase, collect_garbage_base, hb1]
          · rw [collect_garbage_total, ht1] at hBound
            omega
          · rw [collect_garbage_base, hb1] at haddr
            exact haddr

/-- C4 witness: sending a 3-byte message into a `WAITING` actor with an empty
128-byte heap at base 64 enqueues a copy whose payload sits inside the
receiver's heap, differs from the sender's payload address 5000, reads back
as the source bytes, and wakes the receiver to `RUNNABLE`. -/
theorem c4_send_copies_payload_and_wakes_witness :
    ∃ m' : Message,
      (waitingActor.send demoMsg [9, 8, 7] 42).2.mailbox =
          waitingActor.mailbox ++ [m'] ∧
      m'.size = demoMsg.size ∧
      m'.sender_pid = demoMsg.sender_pid ∧
      waitingActor.heap.base ≤ m'.payload ∧
      m'.payload ≤ waitingActor.heap.base + waitingActor.heap.total ∧
      m'.payload ≠ demoMsg.payload ∧
      (waitingActor.send demoMsg [9, 8, 7] 42).2.heap.readAt m'.payload
          demoMsg.size = some [9, 8, 7] ∧
      (waitingActor.send demoMsg [9, 8, 7] 42).2.state =
        (if waitingActor.state = ActorState.WAITING then ActorState.RUNNABLE
         else waitingActor.state) :=
  c4_send_copies_payload_and_wakes waitingActor demoMsg [9, 8, 7] 42
    (by decide) (by right; decide) (by decide)

end AIthon
